import Mathlib

/-!
Verification development for the yei_monitor repository: a shallow embedding
of the event-ingestion / risk-evaluation pipeline (core/monitor.py,
core/contract.py, core/state.py, utils/alerts.py, utils/amount_utils.py)
together with theorems settling the specification claims.

Machine integers are modelled as Nat or Int (chain amounts are uint256 and
never overflow Python ints); exact arithmetic is modelled over Rat.  Python
operations that may raise are modelled with Option / Except and explicit
outcome parameters for the remote gateway and the notification transport.
-/

/-- The six tracked event kinds (core/contract.py key_events list, lines
124-131; core/monitor.py event-name membership tests). -/
inductive EventKind
  | Supply
  | Withdraw
  | Borrow
  | Repay
  | LiquidationCall
  | FlashLoan
deriving DecidableEq, Repr

/-- Per-asset static metadata entry of utils/amount_utils.py TOKEN_DECIMALS:
symbol, decimals, and the escalation limit. -/
structure TokenInfo where
  symbol : String
  decimals : Nat
  limit : Rat
deriving DecidableEq, Repr

/-- utils/amount_utils.py lines 12-28: the static token table, keyed by
lower-cased asset address. -/
def TOKEN_DECIMALS : List (String × TokenInfo) :=
  [ ("0x3894085ef7ff0f0aedf52e2a2704928d1ec074f1",
      { symbol := "USDC", decimals := 6, limit := 50000 }),
    ("0xe30fedd158a2e3b13e9badaeabafc5516e95e8c7",
      { symbol := "WSEI", decimals := 18, limit := 250000 }),
    ("0x5cf6826140c1c56ff49c808a1a75407cd1df9423",
      { symbol := "ISEI", decimals := 6, limit := 250000 }),
    ("0x160345fc359604fc6e70e3c5facbde5f7a9342d8",
      { symbol := "WETH", decimals := 18, limit := 25 }),
    ("0x0555e30da8f98308edb960aa94c0db47230d2b9c",
      { symbol := "WBTC", decimals := 8, limit := (1 : Rat) / 2 }),
    ("0x37a4dd9ced2b19cfe8fac251cd727b5787e45269",
      { symbol := "fastUSD", decimals := 18, limit := 50000 }),
    ("0x541fd749419ca806a8bc7da8ac23d346f2df8b77",
      { symbol := "SolvBTC", decimals := 18, limit := (1 : Rat) / 2 }),
    ("0xb75d0b03c06a926e488e2659df1a861f860bd3d1",
      { symbol := "USDT", decimals := 6, limit := 50000 }),
    ("0xdf77686d99667ae56bc18f539b777dbc2bbe3e9f",
      { symbol := "sfastUSD", decimals := 18, limit := 50000 }),
    ("0x80eede496655fb9047dd39d9f418d5483ed600df",
      { symbol := "frxUSD", decimals := 18, limit := 50000 }),
    ("0x3ec3849c33291a9ef4c5db86de593eb4a37fde45",
      { symbol := "sfrxETH", decimals := 18, limit := 25 }),
    ("0x5bff88ca1442c2496f7e475e9e7786383bc070c0",
      { symbol := "sfrxUSD", decimals := 18, limit := 50000 }),
    ("0x43edd7f3831b08fe70b7555ddd373c8bf65a9050",
      { symbol := "frxETH", decimals := 18, limit := 250000 }) ]

/-- Python str.lower on one character: ASCII upper-case letters are shifted
to lower case (the addresses handled here are ASCII hex strings). -/
def lowerChar (c : Char) : Char :=
  if 65 ≤ c.toNat ∧ c.toNat ≤ 90 then Char.ofNat (c.toNat + 32) else c

/-- Python str.lower over an (ASCII) string. -/
def lowerStr (s : String) : String :=
  ⟨s.data.map lowerChar⟩

/-- TOKEN_DECIMALS.get(asset_address.lower()) as used at core/monitor.py
lines 222 and 501 and core/contract.py line 298. -/
def lookupToken (addr : String) : Option TokenInfo :=
  (TOKEN_DECIMALS.find? (fun p => p.fst == lowerStr addr)).map Prod.snd

/-- utils/amount_utils.py line 5: the Decimal context precision installed for
the formatting helpers (getcontext().prec = 36). -/
def decimalContextPrec : Nat := 36

/-- Exact value of the token-unit conversion event_amount / (10 ** decimals)
performed at core/monitor.py lines 227 and 506 (a Python float division in
the source; this definition is its exact rational quotient). -/
def actualAmountExact (amount : Nat) (decimals : Nat) : Rat :=
  (amount : Rat) / 10 ^ decimals

/-- core/monitor.py lines 467-473: event_impact_percentage starts at 0 and is
set to (event_amount / atoken_total_supply) * 100 only when both the aToken
total supply and the event amount are positive.  The division is exact here;
the source performs it in Python float arithmetic. -/
def eventImpactPercentage (eventAmount totalSupply : Rat) : Rat :=
  if totalSupply > 0 ∧ eventAmount > 0 then eventAmount / totalSupply * 100 else 0

/-- core/contract.py lines 374-377: utilization_rate = 0, and when
total_supply > 0, (total_borrows / total_supply) * 100 (Python float division
in the source; exact here). -/
def utilizationRate (totalBorrows totalSupply : Rat) : Rat :=
  if totalSupply > 0 then totalBorrows / totalSupply * 100 else 0

/-- A rational is dyadic when it is exactly representable with a power-of-two
denominator.  Every finite Python float (IEEE-754 binary64) value is a dyadic
rational, so any result of the float divisions of the source is dyadic. -/
def IsDyadic (q : Rat) : Prop := ∃ m : Int, ∃ k : Nat, q = (m : Rat) / 2 ^ k

/-- core/state.py lines 4-10: the ContractState dataclass.  Timestamps are
abstract naturals supplied by the caller. -/
structure ContractState where
  current_implementation : Option String
  last_upgrade_time : Nat
  is_first_run : Bool
  last_check_time : Nat
deriving DecidableEq, Repr

/-- The freshly constructed ContractState (core/state.py field defaults). -/
def initialContractState : ContractState :=
  { current_implementation := none, last_upgrade_time := 0,
    is_first_run := true, last_check_time := 0 }

/-- core/state.py lines 12-18: update_implementation returns True and stores
the new address and upgrade time exactly when the stored address differs;
otherwise it returns False and leaves the state unchanged.  `now` stands for
int(datetime.now().timestamp()). -/
def update_implementation (st : ContractState) (newImpl : String) (now : Nat) :
    Bool × ContractState :=
  if st.current_implementation ≠ some newImpl then
    (true, { st with current_implementation := some newImpl, last_upgrade_time := now })
  else
    (false, st)

/-- The configuration interface consumed by the core (config.settings is not
part of src/; these are the fields the monitored code reads). -/
structure Config where
  PROXY_ADDRESS : String
  NOTIFY_ALL_EVENTS : Bool
  LIQUIDITY_CHANGE_THRESHOLD : Rat
  ASSET_UTILIZATION_WARNING_THRESHOLD : Rat
deriving DecidableEq, Repr

/-- core/contract.py lines 57-59: get_implementation_address simply returns
the statically configured proxy address; no chain read is performed. -/
def get_implementation_address (cfg : Config) : String :=
  cfg.PROXY_ADDRESS

/-- core/monitor.py lines 560-578 (one execution of check_contract_state):
read the implementation address, run update_implementation, send the
"address changed" alert only when the update reported a change AND this is
not the first run, then clear is_first_run and stamp last_check_time.
Returns the new state and whether the change alert was sent. -/
def check_contract_state (cfg : Config) (st : ContractState) (now : Nat) :
    ContractState × Bool :=
  let addr := get_implementation_address cfg
  let r := update_implementation st addr now
  let sent := r.fst && !st.is_first_run
  ({ r.snd with is_first_run := false, last_check_time := now }, sent)

/-- core/monitor.py lines 580-584: the periodic check loop, run over a list
of observation timestamps; collects the alert flag of every cycle. -/
def iterate_checks (cfg : Config) : ContractState → List Nat → ContractState × List Bool
  | st, [] => (st, [])
  | st, now :: rest =>
    let r := check_contract_state cfg st now
    let rr := iterate_checks cfg r.fst rest
    (rr.fst, r.snd :: rr.snd)

/-- core/monitor.py lines 34-38: initialize() stores the (static) proxy
address into the contract state and leaves is_first_run untouched. -/
def postInitState (cfg : Config) : ContractState :=
  { initialContractState with
      current_implementation := some (get_implementation_address cfg) }

/-- core/contract.py: a raw log as consumed by basic_decode_log.  Topics are
32-byte words modelled as naturals below 2^256; the signature table keys
compare the full word. -/
structure RawLog where
  address : String
  topics : List Nat
  data : String
  blockNumber : Nat
  transactionHash : String
deriving DecidableEq, Repr

/-- core/contract.py lines 196-209: the fixed table of tracked
event-signature hashes (topic0 word to event kind). -/
def event_signatures : List (Nat × EventKind) :=
  [ (0x2b627736bca15cd5381dcf80b0bf11fd197d01a037c52b927a881a10fb73ba61, EventKind.Supply),
    (0x3115d1449a7b732c986cba18244e897a450f61e1bb8d589cd2e69e6c8924f9f7, EventKind.Withdraw),
    (0xc6a898309e823ee50bac40dbae5b8d3b9fede325bbcba08b4a4c1896cd62dfab, EventKind.Borrow),
    (0x4cdde6e09bb755c9a5589ebaec640bbfedff1362d4b255ebf8339782b9942faa, EventKind.Repay),
    (0xe413a321e8681d831f4dbccbca790d2952b56f977908e45be37335533e005286, EventKind.LiquidationCall),
    (0x631042c832b07452973831137f2d73e395028b44b250dedc5abb0ee766e168ac, EventKind.FlashLoan) ]

/-- event_signatures.get(event_signature) at core/contract.py line 216. -/
def lookupSignature (sig : Nat) : Option EventKind :=
  (event_signatures.find? (fun p => p.fst == sig)).map Prod.snd

/-- The object built by basic_decode_log (core/contract.py lines 222-241):
kind, emitting address, block number, transaction hash, the raw topics and
data, and the optional single address argument recovered from topic 1. -/
structure BasicEvent where
  event : EventKind
  address : String
  blockNumber : Nat
  transactionHash : String
  topics : List Nat
  data : String
  argsAddress : Option Nat
deriving DecidableEq, Repr

/-- core/contract.py lines 189-244, basic_decode_log: missing or empty topics
yield None; an untracked topics[0] yields None; a tracked signature yields a
BasicEvent of the matching kind carrying address, blockNumber and
transactionHash, and, when a second topic exists, args["address"] set to the
low 20 bytes of that topic (topics[1].hex()[-40:], i.e. the word mod 2^160;
to_checksum_address never fails on a 40-hex-digit string). -/
def basic_decode_log (log : RawLog) : Option BasicEvent :=
  match log.topics with
  | [] => none
  | sig :: rest =>
    match lookupSignature sig with
    | none => none
    | some kind =>
      some { event := kind, address := log.address,
             blockNumber := log.blockNumber,
             transactionHash := log.transactionHash,
             topics := log.topics, data := log.data,
             argsAddress := rest.head?.map (fun t => t % 2 ^ 160) }

/-- An event handed to the downstream pipeline: either a tier-1 structured
decode (core/contract.py line 149) or a tier-2 basic decode (line 153). -/
inductive PipelineEvent
  | structured (kind : EventKind) (raw : RawLog)
  | basic (e : BasicEvent)
deriving DecidableEq, Repr

/-- Outcomes of the remote ledger endpoint during one poll cycle: the block
height read in the monitor loop (core/monitor.py line 59), the block height
read inside create_event_filter per kind (core/contract.py line 76), getLogs
per kind and window (line 142), and per-log tier-1 decoding (line 149, ok
means process_log succeeded). -/
structure Gateway where
  blockNumber : Except String Nat
  filterLatest : EventKind → Except String Nat
  getLogs : EventKind → Nat → Nat → Except String (List RawLog)
  processLog : EventKind → RawLog → Except String Unit

/-- The filter parameters built by create_event_filter. -/
structure EventFilter where
  fromBlock : Nat
  toBlock : Nat
  kind : EventKind
deriving DecidableEq, Repr

/-- core/contract.py lines 61-95, create_event_filter: re-read the latest
block, bound the window top at min(latest, from_block + 1000), and return the
filter; any exception (here: the block-height read failing) yields None. -/
def create_event_filter (gw : Gateway) (kind : EventKind) (fromBlock : Nat) :
    Option EventFilter :=
  match gw.filterLatest kind with
  | Except.error _ => none
  | Except.ok latest =>
      some { fromBlock := fromBlock, toBlock := min latest (fromBlock + 1000), kind := kind }

/-- core/contract.py lines 113-116: the local range cap computed inside
get_all_events (logged, but never passed to create_event_filter nor returned
to the caller). -/
def cap_to_block (fromBlock toBlock : Nat) : Nat :=
  if toBlock - fromBlock > 1000 then fromBlock + 1000 else toBlock

/-- core/contract.py lines 146-155: tier-1 decode of one log, falling back to
basic_decode_log on any exception; the fallback event is kept only when its
kind matches the kind being fetched. -/
def decode_log_for_kind (gw : Gateway) (kind : EventKind) (log : RawLog) :
    Option PipelineEvent :=
  match gw.processLog kind log with
  | Except.ok _ => some (PipelineEvent.structured kind log)
  | Except.error _ =>
    match basic_decode_log log with
    | some be => if be.event = kind then some (PipelineEvent.basic be) else none
    | none => none

/-- The fixed kind list of core/contract.py lines 124-131. -/
def key_events : List EventKind :=
  [EventKind.Supply, EventKind.Withdraw, EventKind.Borrow,
   EventKind.Repay, EventKind.LiquidationCall, EventKind.FlashLoan]

/-- core/contract.py lines 97-167, get_all_events: for each tracked kind,
build a filter (skipping the kind when that fails), fetch the logs for the
window of the filter (skipping the kind when that raises), and decode each log.
Every exception is caught inside this function, so it always returns a plain
event list and never propagates an error to the caller. -/
def get_all_events (gw : Gateway) (fromBlock : Nat) : List EventKind → List PipelineEvent
  | [] => []
  | kind :: rest =>
    (match create_event_filter gw kind fromBlock with
     | none => []
     | some f =>
       match gw.getLogs kind f.fromBlock f.toBlock with
       | Except.error _ => []
       | Except.ok logs => logs.filterMap (decode_log_for_kind gw kind))
    ++ get_all_events gw fromBlock rest

/-- Result of one iteration of the monitor loop body: the cursor after the
cycle, the events handed downstream, and whether an exception propagated to
the loop handler (core/monitor.py lines 79-81). -/
structure PollResult where
  newCursor : Nat
  events : List PipelineEvent
  errored : Bool
deriving DecidableEq, Repr

/-- core/monitor.py lines 56-81, one poll cycle: read the chain head (a
failure here is the only exception that can reach the loop handler, since
get_all_events and handle_implementation_event swallow theirs); when the head
exceeds the cursor, fetch events for (cursor+1 .. head) and advance the
cursor to the head read at the start of the cycle. -/
def poll_cycle (gw : Gateway) (lastChecked : Nat) : PollResult :=
  match gw.blockNumber with
  | Except.error _ => { newCursor := lastChecked, events := [], errored := true }
  | Except.ok current =>
    if current > lastChecked then
      { newCursor := current,
        events := get_all_events gw (lastChecked + 1) key_events,
        errored := false }
    else
      { newCursor := lastChecked, events := [], errored := false }

/-- utils/alerts.py line 19: the keyword parameters accepted by
AlertManager.send_alert besides self (message, data, is_high_risk); there is
no **kwargs catch-all. -/
def send_alert_params : List String := ["message", "data", "is_high_risk"]

/-- Python call semantics: a keyword call binds only when every supplied
keyword names a declared parameter; an unknown keyword raises TypeError at
the call site. -/
def kwargs_accepted (ks : List String) : Bool :=
  ks.all (fun k => send_alert_params.contains k)

/-- Outcome of one HTTP attempt by the dispatcher: a status code, or a
transport-level exception. -/
inductive HttpOutcome
  | status (code : Nat)
  | exc (msg : String)
deriving DecidableEq, Repr

/-- True exactly when the attempt returned status 200 (utils/alerts.py lines
68 and 100 compare the code to 200; any other code or an exception is a
failure for that stage). -/
def httpSuccess : HttpOutcome → Bool
  | HttpOutcome.status c => c == 200
  | HttpOutcome.exc _ => false

/-- Outcomes of the three delivery mechanisms of utils/alerts.py send_alert:
the aiohttp POST (line 67), the parameterised GET fallback (line 98), and the
final minimal GET (line 112). -/
structure Transport where
  post : HttpOutcome
  getEncoded : HttpOutcome
  simpleGet : HttpOutcome
deriving DecidableEq, Repr

/-- The three delivery mechanisms, in cascade order. -/
inductive Mechanism
  | post
  | getEncoded
  | simpleGet
deriving DecidableEq, Repr

/-- What one send_alert call did: which mechanisms were attempted, and the
Python return value (none models Python None; the source has no return
statement carrying a value, so a boolean result would be some b). -/
structure SendOutcome where
  attempts : List Mechanism
  result : Option Bool
deriving DecidableEq, Repr

/-- utils/alerts.py lines 19-123, send_alert with a validly bound call:
when no bark URL is configured nothing is attempted (line 34); otherwise the
POST runs first and a 200 returns immediately (line 75); a non-200 raises
into, and a transport exception lands in, the handler at line 76, which runs
the GET fallback; a 200 there returns (line 104), a non-200 only logs and
falls through to the end of the function (lines 100-101), and only a raised
exception reaches the handler at line 105 that attempts the minimal GET,
whose outcome is logged either way.  Every path ends inside the outer
try/except of line 27, so no exception escapes and the function always
returns None. -/
def send_alert (barkConfigured : Bool) (t : Transport) : SendOutcome :=
  if !barkConfigured then { attempts := [], result := none }
  else if httpSuccess t.post then { attempts := [Mechanism.post], result := none }
  else
    match t.getEncoded with
    | HttpOutcome.status _ =>
        { attempts := [Mechanism.post, Mechanism.getEncoded], result := none }
    | HttpOutcome.exc _ =>
        { attempts := [Mechanism.post, Mechanism.getEncoded, Mechanism.simpleGet],
          result := none }

/-- The decoded-event argument record as accessed by hasattr chains in
core/monitor.py (args is an attribute bag; a missing attribute is none). -/
structure EventArgs where
  reserve : Option String
  asset : Option String
  collateralAsset : Option String
  debtAsset : Option String
  amount : Option Nat
  debtToCover : Option Nat
  value : Option Nat
deriving DecidableEq, Repr

/-- The empty argument bag. -/
def noArgs : EventArgs :=
  { reserve := none, asset := none, collateralAsset := none, debtAsset := none,
    amount := none, debtToCover := none, value := none }

/-- core/monitor.py lines 96-99, _get_event_type: the fund-movement kinds. -/
def is_fund_event (k : EventKind) : Bool :=
  match k with
  | EventKind.Supply | EventKind.Withdraw | EventKind.Borrow
  | EventKind.Repay | EventKind.LiquidationCall => true
  | EventKind.FlashLoan => false

/-- core/monitor.py lines 96-99, _get_event_type: the high-risk kinds. -/
def is_high_risk_event (k : EventKind) : Bool :=
  match k with
  | EventKind.LiquidationCall | EventKind.FlashLoan => true
  | _ => false

/-- core/monitor.py lines 110-117, _get_asset_addresses: reserve, else asset,
else the collateralAsset/debtAsset pair, else nothing. -/
def get_asset_addresses (a : EventArgs) : List String :=
  match a.reserve with
  | some r => [r]
  | none =>
    match a.asset with
    | some s => [s]
    | none =>
      match a.collateralAsset, a.debtAsset with
      | some c, some d => [c, d]
      | _, _ => []

/-- core/monitor.py lines 203-211 and 444-451: the event principal amount by
the precedence amount, then debtToCover, then value, defaulting to 0. -/
def event_amount (a : EventArgs) : Nat :=
  ((a.amount.orElse (fun _ => a.debtToCover)).orElse (fun _ => a.value)).getD 0

/-- core/monitor.py lines 213-218: the asset looked up for the limit check in
the notification branch: reserve, else asset, else debtAsset. -/
def notif_asset_address (a : EventArgs) : Option String :=
  (a.reserve.orElse (fun _ => a.asset)).orElse (fun _ => a.debtAsset)

/-- core/monitor.py lines 221-236 (and identically lines 500-515): given an
asset address and the event amount, the event is important (call_value "1")
exactly when the token is configured and amount / 10^decimals reaches the
limit.  The division is modelled exactly; at the claimed boundary inputs the
Python float quotient is exact as well. -/
def importance_check (addr : Option String) (amt : Nat) : Bool × String :=
  match addr with
  | none => (false, "0")
  | some a =>
    if amt > 0 then
      match lookupToken a with
      | some ti =>
          if ti.limit ≤ actualAmountExact amt ti.decimals then (true, "1") else (false, "0")
      | none => (false, "0")
    else (false, "0")

/-- What the notification branch of handle_implementation_event delivered. -/
inductive AlertDelivery
  | highRiskVoice (call_value : String)
  | normal
  | errorFallback
deriving DecidableEq, Repr

/-- core/monitor.py lines 193-249, the notification step of
handle_implementation_event: when NOTIFY_ALL_EVENTS or the kind is high
risk, run the limit check; an important event leads to the call at line 241,
send_alert(message, is_high_risk=True, call_value=...), which binds only if
the call_value keyword is accepted by send_alert; an unknown keyword raises
TypeError, caught by the handler at line 246, which sends a plain
"event handling failed" alert instead.  A non-important event is sent with
the default-risk call at line 244. -/
def notification_step (cfg : Config) (k : EventKind) (args : EventArgs) :
    List AlertDelivery :=
  if cfg.NOTIFY_ALL_EVENTS || is_high_risk_event k then
    let imp := importance_check (notif_asset_address args) (event_amount args)
    if imp.fst then
      if kwargs_accepted ["is_high_risk", "call_value"] then
        [AlertDelivery.highRiskVoice imp.snd]
      else
        [AlertDelivery.errorFallback]
    else
      [AlertDelivery.normal]
  else []

/-- A reserve/liquidity snapshot as returned by get_asset_liquidity
(core/contract.py lines 380-387); availableLiquidity and utilizationRate are
derived from totalSupply and totalBorrows. -/
structure LiquidityData where
  symbol : String
  decimals : Nat
  totalSupply : Nat
  totalBorrows : Nat
deriving DecidableEq, Repr

/-- Observable steps of one check_liquidity execution (core/monitor.py lines
432-558): reaching the liquidity-change alert call of line 517, reaching the
utilization-warning alert call of line 539, taking the below-threshold else
branch of line 551, and the TypeError raised by an unbound keyword being
caught by the handler of line 557 (which ends the whole function). -/
inductive LiqTrace
  | liquidityAlertCall (asset : String) (is_high_risk : Bool) (call_value : String)
  | utilizationAlertCall (asset : String)
  | skipUtilizationCheck (asset : String)
  | typeErrorCaught
deriving DecidableEq, Repr

/-- core/monitor.py lines 454-555, the per-asset body of check_liquidity:
fetch the snapshot (a missing snapshot skips the asset, line 460); compute
the utilization and the event impact; when the impact reaches
LIQUIDITY_CHANGE_THRESHOLD, run the limit check and call send_alert with the
call_value keyword (line 517) - a call that binds only if send_alert accepts
that keyword, and otherwise raises TypeError, aborting check_liquidity; only
inside this branch, and only if that call returned, is the utilization
compared against ASSET_UTILIZATION_WARNING_THRESHOLD (line 530) and the
warning alert sent (line 539, again with call_value).  Below the threshold
the utilization check is skipped (line 551).  Returns the trace and whether
the function aborted. -/
def check_liquidity_asset (cfg : Config) (lookup : String → Option LiquidityData)
    (eventAmount : Nat) (asset : String) : List LiqTrace × Bool :=
  match lookup asset with
  | none => ([], false)
  | some ld =>
    let util := utilizationRate ld.totalBorrows ld.totalSupply
    let impact := eventImpactPercentage eventAmount ld.totalSupply
    if cfg.LIQUIDITY_CHANGE_THRESHOLD ≤ impact then
      let imp := importance_check (some asset) eventAmount
      if kwargs_accepted ["is_high_risk", "call_value"] then
        if cfg.ASSET_UTILIZATION_WARNING_THRESHOLD ≤ util then
          ([LiqTrace.liquidityAlertCall asset imp.fst imp.snd,
            LiqTrace.utilizationAlertCall asset], false)
        else
          ([LiqTrace.liquidityAlertCall asset imp.fst imp.snd], false)
      else
        ([LiqTrace.liquidityAlertCall asset imp.fst imp.snd,
          LiqTrace.typeErrorCaught], true)
    else
      ([LiqTrace.skipUtilizationCheck asset], false)

/-- The asset loop of check_liquidity: successive assets are processed until
one aborts the function (an exception jumps to the handler at line 557). -/
def run_liquidity_assets (cfg : Config) (lookup : String → Option LiquidityData)
    (eventAmount : Nat) : List String → List LiqTrace
  | [] => []
  | a :: rest =>
    if (check_liquidity_asset cfg lookup eventAmount a).snd then
      (check_liquidity_asset cfg lookup eventAmount a).fst
    else
      (check_liquidity_asset cfg lookup eventAmount a).fst
        ++ run_liquidity_assets cfg lookup eventAmount rest

/-- core/monitor.py lines 432-558, check_liquidity: derive the asset list and
the event amount by the documented precedence rules and process each asset. -/
def check_liquidity (cfg : Config) (lookup : String → Option LiquidityData)
    (args : EventArgs) : List LiqTrace :=
  run_liquidity_assets cfg lookup (event_amount args) (get_asset_addresses args)

/-- True on the utilization-warning trace entries. -/
def is_utilization_call : LiqTrace → Bool
  | LiqTrace.utilizationAlertCall _ => true
  | _ => false

/-- A gateway for a cycle in which the head is 105 with the cursor at 100,
fetching the Supply logs raises, every other kind returns no logs, and
tier-1 decoding is unused. -/
def gwFetchFail : Gateway :=
  { blockNumber := Except.ok 105,
    filterLatest := fun _ => Except.ok 105,
    getLogs := fun k _ _ =>
      match k with
      | EventKind.Supply => Except.error "rate limited"
      | _ => Except.ok [],
    processLog := fun _ _ => Except.error "unused" }

/-- A gateway whose block-height read fails at the top of the cycle. -/
def gwHeadFail : Gateway :=
  { blockNumber := Except.error "connection reset",
    filterLatest := fun _ => Except.error "connection reset",
    getLogs := fun _ _ _ => Except.error "connection reset",
    processLog := fun _ _ => Except.error "connection reset" }

/-- A healthy gateway for a cycle with the cursor at 0 and the head at 2000:
every read succeeds and there are no logs. -/
def gwFarBehind : Gateway :=
  { blockNumber := Except.ok 2000,
    filterLatest := fun _ => Except.ok 2000,
    getLogs := fun _ _ _ => Except.ok [],
    processLog := fun _ _ => Except.ok () }

/-- Lower-cased address of the configured USDC entry (decimals 6,
limit 50000). -/
def usdcAddr : String := "0x3894085ef7ff0f0aedf52e2a2704928d1ec074f1"

/-- A concrete configuration: notify-all on, liquidity-change threshold 5.0,
utilization warning threshold 90.0. -/
def cfgStd : Config :=
  { PROXY_ADDRESS := "0xproxy", NOTIFY_ALL_EVENTS := true,
    LIQUIDITY_CHANGE_THRESHOLD := 5, ASSET_UTILIZATION_WARNING_THRESHOLD := 90 }

/-- FlashLoan-style argument bag carrying the USDC asset and a given raw
amount. -/
def argsFlash (amt : Nat) : EventArgs :=
  { noArgs with asset := some usdcAddr, amount := some amt }

/-- Snapshot source for the gate test: USDC has total supply 1000 and
borrows 990 (utilization 99.0); other assets are unknown. -/
def lookupGate : String → Option LiquidityData := fun a =>
  if a == usdcAddr then
    some { symbol := "USDC", decimals := 6, totalSupply := 1000, totalBorrows := 990 }
  else none

/-- Event args giving an impact of exactly 4.9 percent against lookupGate:
reserve USDC, amount 49 out of a total supply of 1000. -/
def args49 : EventArgs := { noArgs with reserve := some usdcAddr, amount := some 49 }

/-- Transport where all three mechanisms answer with a non-200 status. -/
def tAllFail : Transport :=
  { post := HttpOutcome.status 500, getEncoded := HttpOutcome.status 500,
    simpleGet := HttpOutcome.status 500 }

/-- Transport where the primary POST succeeds. -/
def tPostOk : Transport :=
  { post := HttpOutcome.status 200, getEncoded := HttpOutcome.exc "unused",
    simpleGet := HttpOutcome.exc "unused" }

/-- Transport where the POST fails with a status and the GET fallback raises,
so the minimal GET is reached. -/
def tGetExc : Transport :=
  { post := HttpOutcome.status 500, getEncoded := HttpOutcome.exc "timeout",
    simpleGet := HttpOutcome.status 200 }

/-- A raw log carrying the Supply signature and one indexed topic. -/
def logSupply : RawLog :=
  { address := "0xproxy",
    topics := [0x2b627736bca15cd5381dcf80b0bf11fd197d01a037c52b927a881a10fb73ba61, 5],
    data := "",
    blockNumber := 7,
    transactionHash := "0xabc" }

lemma not_dyadic_one_millionth : ¬ IsDyadic ((1 : Rat) / 10 ^ 6) := by
  rintro ⟨m, k, h⟩
  have h2 : ((2 : Rat)) ^ k ≠ 0 := by positivity
  have h10 : ((10 : Rat)) ^ 6 ≠ 0 := by norm_num
  rw [div_eq_div_iff h10 h2, one_mul] at h
  have hz : (2 : Int) ^ k = m * 10 ^ 6 := by exact_mod_cast h
  have h5 : (5 : Int) ∣ 2 ^ k := by
    rw [hz]; exact ⟨m * 200000, by ring⟩
  have hp : Prime (5 : Int) := by norm_num
  have := hp.dvd_of_dvd_pow h5
  norm_num at this

lemma not_dyadic_hundred_thirds : ¬ IsDyadic ((100 : Rat) / 3) := by
  rintro ⟨m, k, h⟩
  have h2 : ((2 : Rat)) ^ k ≠ 0 := by positivity
  have h3 : ((3 : Rat)) ≠ 0 := by norm_num
  rw [div_eq_div_iff h3 h2] at h
  have hz : (100 : Int) * 2 ^ k = m * 3 := by exact_mod_cast h
  have hdvd : (3 : Int) ∣ 100 * 2 ^ k := ⟨m, by linarith⟩
  have hp : Prime (3 : Int) := by norm_num
  rcases hp.dvd_mul.mp hdvd with hc | hc
  · norm_num at hc
  · have := hp.dvd_of_dvd_pow hc
    norm_num at this

lemma actualAmountExact_micro : actualAmountExact 1 6 = (1 : Rat) / 10 ^ 6 := by
  unfold actualAmountExact
  norm_num

lemma eventImpact_one_third : eventImpactPercentage 1 3 = (100 : Rat) / 3 := by
  unfold eventImpactPercentage
  rw [if_pos (by norm_num)]
  norm_num

lemma utilization_one_third : utilizationRate 1 3 = (100 : Rat) / 3 := by
  unfold utilizationRate
  rw [if_pos (by norm_num)]
  ring

lemma check_keeps_address (cfg : Config) (st : ContractState) (now : Nat)
    (h : st.current_implementation = some cfg.PROXY_ADDRESS) :
    check_contract_state cfg st now =
      ({ st with is_first_run := false, last_check_time := now }, false) := by
  simp [check_contract_state, update_implementation, get_implementation_address, h]

lemma checks_never_alert (cfg : Config) :
    ∀ (times : List Nat) (st : ContractState),
      st.current_implementation = some cfg.PROXY_ADDRESS →
      (iterate_checks cfg st times).snd.all (fun b => !b) = true := by
  intro times
  induction times with
  | nil => intro st _; rfl
  | cons now rest ih =>
    intro st h
    unfold iterate_checks
    rw [check_keeps_address cfg st now h]
    simp only [List.all_cons]
    rw [ih { st with is_first_run := false, last_check_time := now } h]
    rfl

lemma kwargs_call_value_rejected :
    kwargs_accepted ["is_high_risk", "call_value"] = false := by
  decide

lemma liq_asset_no_util (cfg : Config) (lookup : String → Option LiquidityData)
    (amt : Nat) (a : String) :
    (check_liquidity_asset cfg lookup amt a).fst.filter is_utilization_call = [] := by
  unfold check_liquidity_asset
  cases lookup a with
  | none => rfl
  | some ld =>
    simp only [kwargs_call_value_rejected]
    split_ifs <;> simp_all [is_utilization_call]

lemma run_assets_no_util (cfg : Config) (lookup : String → Option LiquidityData)
    (amt : Nat) :
    ∀ l : List String,
      (run_liquidity_assets cfg lookup amt l).filter is_utilization_call = [] := by
  intro l
  induction l with
  | nil => rfl
  | cons a rest ih =>
    unfold run_liquidity_assets
    split
    · exact liq_asset_no_util cfg lookup amt a
    · rw [List.filter_append, liq_asset_no_util cfg lookup amt a, ih]
      rfl

/-- Claim C4: get_implementation_address always returns the statically
configured proxy address, so after initialize() stores that address,
update_implementation returns False on every subsequent periodic check and
the "address changed" confirmation alert is never sent in steady state. -/
theorem c4_static_implementation :
    ∀ (cfg : Config) (times : List Nat) (now : Nat),
      get_implementation_address cfg = cfg.PROXY_ADDRESS ∧
      (update_implementation (postInitState cfg) (get_implementation_address cfg) now).fst
        = false ∧
      (iterate_checks cfg (postInitState cfg) times).snd.all (fun b => !b) = true := by
  intro cfg times now
  refine ⟨rfl, ?_, ?_⟩
  · simp [update_implementation, postInitState, initialContractState,
      get_implementation_address]
  · exact checks_never_alert cfg times (postInitState cfg) rfl

/-- Claim C8: update_implementation returns True and stamps
last_upgrade_time exactly when the observed address differs from the stored
one (and is the identity with result False otherwise), and a
check_contract_state cycle with is_first_run still true never sends the
"address changed" alert; is_first_run is cleared only by the cycle itself,
after the comparison. -/
theorem c8_update_first_run :
    ∀ (st : ContractState) (a : String) (now : Nat) (cfg : Config),
      ((update_implementation st a now).fst = true ↔
        st.current_implementation ≠ some a) ∧
      (st.current_implementation ≠ some a →
        (update_implementation st a now).snd.last_upgrade_time = now ∧
        (update_implementation st a now).snd.current_implementation = some a) ∧
      (st.current_implementation = some a → update_implementation st a now = (false, st)) ∧
      (st.is_first_run = true → (check_contract_state cfg st now).snd = false) ∧
      (check_contract_state cfg st now).fst.is_first_run = false := by
  intro st a now cfg
  refine ⟨?_, ?_, ?_, ?_, ?_⟩
  · constructor
    · intro hf
      by_contra hne
      simp [update_implementation, hne] at hf
    · intro hne
      simp [update_implementation, hne]
  · intro hne
    simp [update_implementation, hne]
  · intro he
    simp [update_implementation, he]
  · intro hf
    simp [check_contract_state, hf]
  · simp [check_contract_state]

/-- Witness for C8 at concrete inputs: the very first observation changes the
stored address (update returns True, upgrade time stamped) yet the cycle
sends no alert because is_first_run is still true. -/
theorem c8_witness :
    (update_implementation initialContractState "0xnew" 42).fst = true ∧
    (update_implementation initialContractState "0xnew" 42).snd.last_upgrade_time = 42 ∧
    (check_contract_state cfgStd initialContractState 42).snd = false :=
  ⟨(c8_update_first_run initialContractState "0xnew" 42 cfgStd).1.mpr (by decide),
   ((c8_update_first_run initialContractState "0xnew" 42 cfgStd).2.1 (by decide)).1,
   (c8_update_first_run initialContractState "0xnew" 42 cfgStd).2.2.2.1 rfl⟩

/-- Claim C9: basic_decode_log yields no event when the topics are empty or
topics[0] is not one of the six tracked signature hashes; on a tracked
signature it yields the event of the matching kind carrying the log
address, block number and transaction hash, with the single address argument
set to the low 20 bytes of the second topic when one is present (and absent
otherwise). -/
theorem c9_basic_decode :
    ∀ (l : RawLog),
      (l.topics = [] → basic_decode_log l = none) ∧
      (∀ sig rest, l.topics = sig :: rest →
        (lookupSignature sig = none → basic_decode_log l = none) ∧
        (∀ kind, lookupSignature sig = some kind →
          basic_decode_log l = some
            { event := kind, address := l.address, blockNumber := l.blockNumber,
              transactionHash := l.transactionHash, topics := l.topics, data := l.data,
              argsAddress := rest.head?.map (fun t => t % 2 ^ 160) })) := by
  intro l
  constructor
  · intro h
    simp [basic_decode_log, h]
  · intro sig rest h
    constructor
    · intro hn
      simp [basic_decode_log, h, hn]
    · intro kind hk
      simp [basic_decode_log, h, hk]

/-- Witness for C9: a concrete log with the Supply signature and second
topic 5 decodes to a Supply event whose address argument is 5, and dropping
the second topic drops the argument. -/
theorem c9_witness :
    basic_decode_log logSupply = some
      { event := EventKind.Supply, address := "0xproxy", blockNumber := 7,
        transactionHash := "0xabc", topics := logSupply.topics, data := "",
        argsAddress := some 5 } := by
  have h := ((c9_basic_decode logSupply).2
      0x2b627736bca15cd5381dcf80b0bf11fd197d01a037c52b927a881a10fb73ba61 [5] rfl).2
      EventKind.Supply (by decide)
  rw [h]
  decide

/-- Claim C10: event_impact_percentage is never negative, equals
amount / totalSupply * 100 when both the supply and the amount are positive,
and is exactly 0 when the supply is zero or the amount is not positive; the
guard means the division is never evaluated with a zero divisor. -/
theorem c10_impact :
    ∀ (a s : Rat),
      0 ≤ eventImpactPercentage a s ∧
      (0 < s → 0 < a → eventImpactPercentage a s = a / s * 100) ∧
      (s = 0 ∨ a ≤ 0 → eventImpactPercentage a s = 0) := by
  intro a s
  unfold eventImpactPercentage
  by_cases h : s > 0 ∧ a > 0
  · rw [if_pos h]
    refine ⟨?_, fun _ _ => rfl, ?_⟩
    · have := div_nonneg (le_of_lt h.2) (le_of_lt h.1)
      nlinarith
    · rintro (hs | ha)
      · exact absurd h.1 (by rw [hs]; exact lt_irrefl 0)
      · exact absurd h.2 (not_lt.mpr ha)
  · rw [if_neg h]
    refine ⟨le_refl 0, ?_, fun _ => rfl⟩
    intro hs ha
    exact absurd ⟨hs, ha⟩ h

/-- Witness for C10 at concrete inputs: impact 2 against supply 4 is 50, and
a zero supply gives exactly 0. -/
theorem c10_witness :
    eventImpactPercentage 2 4 = 2 / 4 * 100 ∧ eventImpactPercentage 2 0 = 0 :=
  ⟨(c10_impact 2 4).2.1 (by norm_num) (by norm_num),
   (c10_impact 2 0).2.2 (Or.inl rfl)⟩

/-- Claim C1 (counterexample): in a cycle where fetching the Supply logs
raises inside get_all_events, the exception is swallowed there, the cycle
completes without error, and the cursor still advances from 100 to the head
105 - the failed range is silently skipped, contrary to the claim that any
fetch exception leaves lastCheckedBlock unchanged. -/
theorem c1_counterexample :
    gwFetchFail.getLogs EventKind.Supply 101 105 = Except.error "rate limited" ∧
    (poll_cycle gwFetchFail 100).newCursor = 105 ∧
    (poll_cycle gwFetchFail 100).errored = false := by
  refine ⟨rfl, ?_, ?_⟩ <;> decide

/-- Claim C1 (amended): the cursor is left unchanged, and the same window
retried, exactly for exceptions that propagate to the monitor loop (reading
the chain head); when the head read succeeds and exceeds the cursor, the
cycle always advances the cursor to that head, because all fetch and decode
failures are caught inside get_all_events. -/
theorem c1_cursor_advance :
    ∀ (gw : Gateway) (last : Nat),
      ((poll_cycle gw last).errored = true → (poll_cycle gw last).newCursor = last) ∧
      (∀ cur, gw.blockNumber = Except.ok cur → last < cur →
        (poll_cycle gw last).newCursor = cur) := by
  intro gw last
  cases hb : gw.blockNumber with
  | error e =>
    constructor
    · intro _
      simp [poll_cycle, hb]
    · intro cur hc _
      cases hc
  | ok n =>
    constructor
    · intro h
      by_cases hlt : n > last
      · exfalso
        simp [poll_cycle, hb, hlt] at h
      · simp [poll_cycle, hb, hlt]
    · intro cur hc hlt
      injection hc with hcc
      subst hcc
      simp [poll_cycle, hb, hlt]

/-- Witness for C1 (amended) at concrete inputs: a failed head read keeps the
cursor at 100; a successful read of head 105 advances it to 105 even though
the Supply fetch failed. -/
theorem c1_witness :
    (poll_cycle gwHeadFail 100).newCursor = 100 ∧
    (poll_cycle gwFetchFail 100).newCursor = 105 :=
  ⟨(c1_cursor_advance gwHeadFail 100).1 (by decide),
   (c1_cursor_advance gwFetchFail 100).2 105 rfl (by decide)⟩

/-- Claim C3 (code bug exhibit): with the cursor at 0 and a stable head of
2000, every per-kind filter tops out at block 1001 (min(head, from+1000)
with from = cursor+1), the range cap computed inside get_all_events is the
same 1001 and is never applied to the query anyway, yet the cycle sets the
cursor to the full head 2000 - beyond the scanned window, and both bounds
differ from the claimed min(head, cursor+1000) = 1000. -/
theorem c3_window_code_bug :
    create_event_filter gwFarBehind EventKind.Supply 1 =
      some { fromBlock := 1, toBlock := 1001, kind := EventKind.Supply } ∧
    cap_to_block 1 2000 = 1001 ∧
    (poll_cycle gwFarBehind 0).newCursor = 2000 ∧
    (poll_cycle gwFarBehind 0).newCursor ≠ 1001 ∧
    (1001 : Nat) ≠ min 2000 (0 + 1000) := by
  refine ⟨?_, ?_, ?_, ?_, ?_⟩ <;> decide

/-- Claim C5 (counterexample): the limit-check conversion
event_amount / (10 ** decimals) is a Python binary float division at
core/monitor.py lines 227 and 506, so its result is a dyadic rational; for
amount 1 at 6 decimals the exact quotient is 1/10^6, which no dyadic
rational equals - the computed result necessarily carries floating-point
rounding error, refuting the claim that these divisions are exact
36-digit decimal arithmetic. -/
theorem c5_counterexample : ¬ IsDyadic (actualAmountExact 1 6) := by
  rw [actualAmountExact_micro]
  exact not_dyadic_one_millionth

/-- Claim C5 (amended): only the formatting helpers of amount_utils use the
36-digit Decimal context; the risk-evaluation divisions (event impact,
utilization, limit conversion) are binary floating point, and their exact
quotients - here impact and utilization 100/3 for amount 1 against supply 3 -
are not representable by any binary float, so those results carry rounding
error. -/
theorem c5_float_divisions :
    eventImpactPercentage 1 3 = 100 / 3 ∧
    ¬ IsDyadic (eventImpactPercentage 1 3) ∧
    ¬ IsDyadic (utilizationRate 1 3) ∧
    decimalContextPrec = 36 := by
  refine ⟨eventImpact_one_third, ?_, ?_, rfl⟩
  · rw [eventImpact_one_third]
    exact not_dyadic_hundred_thirds
  · rw [utilization_one_third]
    exact not_dyadic_hundred_thirds

lemma lower_usdc : lowerStr usdcAddr = usdcAddr := by decide

lemma lookup_usdc :
    lookupToken usdcAddr = some { symbol := "USDC", decimals := 6, limit := 50000 } := by
  unfold lookupToken
  rw [lower_usdc]
  decide

lemma actual_usdc_60000 : actualAmountExact 60000000000 6 = 60000 := by
  norm_num [actualAmountExact]

lemma actual_usdc_49000 : actualAmountExact 49000000000 6 = 49000 := by
  norm_num [actualAmountExact]

lemma importance_usdc_60000 :
    importance_check (some usdcAddr) 60000000000 = (true, "1") := by
  simp only [importance_check, lookup_usdc, actual_usdc_60000]
  norm_num

lemma importance_usdc_49000 :
    importance_check (some usdcAddr) 49000000000 = (false, "0") := by
  simp only [importance_check, lookup_usdc, actual_usdc_49000]
  norm_num

lemma notif_flash_args (amt : Nat) :
    notif_asset_address (argsFlash amt) = some usdcAddr := rfl

lemma amount_flash_args (amt : Nat) : event_amount (argsFlash amt) = amt := rfl

/-- Claim C2 (code bug exhibit): for a FlashLoan on the USDC asset
(decimals 6, limit 50000), amount 60000000000 is classified important
(call_value "1") and amount 49000000000 is not, exactly as the claimed
boundary cases say; but send_alert accepts no call_value keyword, so the
high-risk call of core/monitor.py line 241 raises TypeError and the handler
at line 246 sends only a generic fallback alert - the escalated high-risk /
voice alert is never delivered. -/
theorem c2_escalation_code_bug :
    (importance_check (notif_asset_address (argsFlash 60000000000))
        (event_amount (argsFlash 60000000000))).fst = true ∧
    (importance_check (notif_asset_address (argsFlash 60000000000))
        (event_amount (argsFlash 60000000000))).snd = "1" ∧
    (importance_check (notif_asset_address (argsFlash 49000000000))
        (event_amount (argsFlash 49000000000))).fst = false ∧
    kwargs_accepted ["is_high_risk", "call_value"] = false ∧
    notification_step cfgStd EventKind.FlashLoan (argsFlash 60000000000) =
      [AlertDelivery.errorFallback] ∧
    notification_step cfgStd EventKind.FlashLoan (argsFlash 49000000000) =
      [AlertDelivery.normal] := by
  refine ⟨?_, ?_, ?_, kwargs_call_value_rejected, ?_, ?_⟩
  · rw [notif_flash_args, amount_flash_args, importance_usdc_60000]
  · rw [notif_flash_args, amount_flash_args, importance_usdc_60000]
  · rw [notif_flash_args, amount_flash_args, importance_usdc_49000]
  · simp [notification_step, notif_flash_args, amount_flash_args,
      importance_usdc_60000, kwargs_call_value_rejected, cfgStd, is_high_risk_event]
  · simp [notification_step, notif_flash_args, amount_flash_args,
      importance_usdc_49000, cfgStd, is_high_risk_event]

/-- Claim C6 (counterexample): when the POST and the GET fallback both answer
with status 500, the minimal GET is never attempted and send_alert returns
None rather than the boolean false - the cascade does not try all three
mechanisms, refuting the claim as stated. -/
theorem c6_counterexample :
    send_alert true tAllFail =
      { attempts := [Mechanism.post, Mechanism.getEncoded], result := none } ∧
    (send_alert true tAllFail).result ≠ some false ∧
    (send_alert true tAllFail).attempts.contains Mechanism.simpleGet = false := by
  refine ⟨?_, ?_, ?_⟩ <;> decide

/-- Claim C6 (amended): send_alert always returns None (never a boolean) and
by construction no exception escapes; the POST is tried first and a 200
stops the cascade; any POST failure leads to the GET fallback; the minimal
GET is attempted exactly when the POST failed and the GET fallback raised an
exception (a non-200 GET response ends the cascade without it); with no bark
URL configured nothing is attempted. -/
theorem c6_cascade :
    ∀ (t : Transport),
      (send_alert true t).result = none ∧
      (send_alert false t).attempts = [] ∧
      (t.post = HttpOutcome.status 200 →
        (send_alert true t).attempts = [Mechanism.post]) ∧
      (httpSuccess t.post = false →
        Mechanism.getEncoded ∈ (send_alert true t).attempts) ∧
      (Mechanism.simpleGet ∈ (send_alert true t).attempts ↔
        (httpSuccess t.post = false ∧ ∃ m, t.getEncoded = HttpOutcome.exc m)) := by
  intro t
  refine ⟨?_, rfl, ?_, ?_, ?_⟩
  · by_cases hp : httpSuccess t.post
    · simp [send_alert, hp]
    · cases hg : t.getEncoded <;> simp [send_alert, hp, hg]
  · intro hp
    simp [send_alert, httpSuccess, hp]
  · intro hp
    cases hg : t.getEncoded <;> simp [send_alert, hp, hg]
  · constructor
    · intro hmem
      by_cases hp : httpSuccess t.post
      · simp [send_alert, hp] at hmem
      · cases hg : t.getEncoded with
        | status c =>
          simp [send_alert, hp, hg] at hmem
        | exc m =>
          exact ⟨by simp [hp], m, rfl⟩
    · rintro ⟨hp, m, hg⟩
      simp [send_alert, hp, hg]

/-- Witness for C6 (amended) at concrete transports: a successful POST stops
after the first mechanism; a failing POST reaches the GET fallback; the
minimal GET is reached when the GET fallback raises. -/
theorem c6_witness :
    (send_alert true tPostOk).attempts = [Mechanism.post] ∧
    Mechanism.getEncoded ∈ (send_alert true tAllFail).attempts ∧
    Mechanism.simpleGet ∈ (send_alert true tGetExc).attempts :=
  ⟨(c6_cascade tPostOk).2.2.1 rfl,
   (c6_cascade tAllFail).2.2.2.1 (by decide),
   (c6_cascade tGetExc).2.2.2.2.mpr ⟨by decide, "timeout", rfl⟩⟩

lemma lookupGate_usdc :
    lookupGate usdcAddr =
      some { symbol := "USDC", decimals := 6, totalSupply := 1000, totalBorrows := 990 } := by
  decide

lemma impact_49_1000 :
    eventImpactPercentage (49 : Rat) (1000 : Rat) = 49 / 10 := by
  unfold eventImpactPercentage
  rw [if_pos (by norm_num)]
  norm_num

lemma gate_asset_49 :
    check_liquidity_asset cfgStd lookupGate 49 usdcAddr =
      ([LiqTrace.skipUtilizationCheck usdcAddr], false) := by
  have hcond :
      ¬ (cfgStd.LIQUIDITY_CHANGE_THRESHOLD ≤
          eventImpactPercentage (49 : Rat) (1000 : Rat)) := by
    rw [impact_49_1000]
    show ¬ ((5 : Rat) ≤ 49 / 10)
    norm_num
  simp [check_liquidity_asset, lookupGate_usdc, hcond]

/-- Claim C7: the utilization-warning comparison of core/monitor.py line 530
sits strictly inside the branch taken only when the event impact reaches
LIQUIDITY_CHANGE_THRESHOLD, so the utilization-warning alert can only ever
fire after the liquidity-change alert for the same event and asset - in the
code as written it in fact never fires at all, because the gate-1 alert call
at line 517 raises TypeError (unknown call_value keyword) first; and at the
claimed concrete instance (threshold 5.0, impact 4.9, utilization 99.0) the
below-threshold branch is taken and no utilization check occurs. -/
theorem c7_gating :
    (∀ (cfg : Config) (lookup : String → Option LiquidityData) (args : EventArgs),
      (check_liquidity cfg lookup args).filter is_utilization_call = []) ∧
    check_liquidity cfgStd lookupGate args49 =
      [LiqTrace.skipUtilizationCheck usdcAddr] ∧
    utilizationRate 990 1000 = 99 ∧
    eventImpactPercentage 49 1000 = 49 / 10 := by
  refine ⟨?_, ?_, ?_, ?_⟩
  · intro cfg lookup args
    exact run_assets_no_util cfg lookup (event_amount args) (get_asset_addresses args)
  · have h1 : event_amount args49 = 49 := rfl
    have h2 : get_asset_addresses args49 = [usdcAddr] := rfl
    unfold check_liquidity
    rw [h1, h2]
    unfold run_liquidity_assets
    rw [gate_asset_49]
    simp [run_liquidity_assets]
  · unfold utilizationRate
    rw [if_pos (by norm_num)]
    norm_num
  · unfold eventImpactPercentage
    rw [if_pos (by norm_num)]
    norm_num
